import Mathlib

/-!
Shallow embedding of the task routing & execution-tracking pipeline of the
`gia-api` repository, together with theorems settling the frozen claims
about it.

The embedding translates the Python sources under `src/api`:
  * `agents/models.py`       — the `AgentDefinition` pydantic model;
  * `agents/registry.py`     — the in-memory agent registry and its
                               read-compare-write store synchronisation;
  * `worker/task_storage.py` — `save_task` / `update_task_status` over the
                               `tasks` table;
  * `worker/tasks.py`        — the two Celery tasks
                               (`agent_initialization_task`,
                               `process_agent_result_task`);
  * `worker/webhook_client.py` — HMAC-SHA256 signed webhook delivery;
  * `worker/session_manager.py` — routing decisions and the permanent
                               `agent_sessions` audit table;
  * `worker/celery_app.py`   — the queue routing table.

Modelling conventions: machine-level impurity is made explicit — wall-clock
timestamps become a `now : String` argument, the Supabase client's
presence becomes a `Bool` flag, HTTP transport becomes a function
argument, and every store interaction is recorded in an operation log so
that claims about "writes", "updates" and "deletes" are statements about
that log.  Python keyword-argument calls are modelled by the literal list
of keyword names appearing at each call site, checked against the list of
parameters of the Python `def` being called, exactly as CPython does
before executing the callee: an unexpected keyword raises `TypeError`.
Python truthiness (`if x:` on strings, dicts, `None`) is modelled by
explicit truthiness functions.  Celery's `self.update_state` calls only
mutate transient in-flight task metadata held by the broker, never the
stores this specification is about, and are not modelled.
-/

namespace Gia

/-- Truthiness of a Python `Optional[str]`: `None` and `""` are falsy. -/
def optStrTruthy : Option String → Bool
  | none => false
  | some s => s ≠ ""

/-- Python `str.lower()`, character-wise (the sources only lower-case
ASCII agent names). -/
def pyLower (s : String) : String := ⟨s.data.map Char.toLower⟩

/-- Python `str.strip()`: drop leading and trailing whitespace. -/
def pyStrip (s : String) : String :=
  ⟨((s.data.dropWhile Char.isWhitespace).reverse.dropWhile
    Char.isWhitespace).reverse⟩

/-- A JSON value as handled by `json.dumps` in the Python sources
(objects are insertion-ordered key/value lists, as Python dicts are). -/
inductive JsonVal where
  | str (s : String)
  | num (n : Int)
  | bool (b : Bool)
  | null
  | arr (xs : List JsonVal)
  | obj (fields : List (String × JsonVal))

/-- Python truthiness of a JSON value: `None`, `""`, `0`, `False`, `[]`
and `\x7b\x7d` are falsy. -/
def JsonVal.truthy : JsonVal → Bool
  | .str s => s ≠ ""
  | .num n => n ≠ 0
  | .bool b => b
  | .null => false
  | .arr xs => !xs.isEmpty
  | .obj fs => !fs.isEmpty

/-- Truthiness of a Python `Optional` JSON value. -/
def optJsonTruthy : Option JsonVal → Bool
  | none => false
  | some v => v.truthy

/-- `d[k] = v` on a Python dict modelled as an insertion-ordered
association list: overwrite in place if the key exists, else append. -/
def dictSet {α : Type} (d : List (String × α)) (k : String) (v : α) :
    List (String × α) :=
  if d.any (fun p => p.1 == k) then
    d.map (fun p => if p.1 == k then (k, v) else p)
  else d ++ [(k, v)]

/-- `d.update(kvs)` on a Python dict. -/
def pyDictMerge {α : Type} (d : List (String × α)) (kvs : List (String × α)) :
    List (String × α) :=
  kvs.foldl (fun d kv => dictSet d kv.1 kv.2) d

/-- `d.get(k)` on a Python dict. -/
def dictGet {α : Type} (d : List (String × α)) (k : String) : Option α :=
  (d.find? (fun p => p.1 == k)).map (fun p => p.2)

/-- Lower-case hexadecimal digit. -/
def hexDigit (n : Nat) : String :=
  if n < 10 then (Char.ofNat (48 + n)).toString
  else (Char.ofNat (87 + n)).toString

/-- Four-digit lower-case hexadecimal rendering, as in `\uXXXX` escapes. -/
def hex4 (n : Nat) : String :=
  hexDigit (n / 4096 % 16) ++ hexDigit (n / 256 % 16) ++
  hexDigit (n / 16 % 16) ++ hexDigit (n % 16)

/-- Escape one character the way CPython's `json.dumps` does with its
default `ensure_ascii=True`: everything outside `0x20`–`0x7e` is escaped,
with short escapes for the usual control characters and UTF-16 surrogate
pairs above the BMP. -/
def jsonEscapeChar (c : Char) : String :=
  if c = '"' then "\\\""
  else if c = '\\' then "\\\\"
  else if c = '\n' then "\\n"
  else if c = '\r' then "\\r"
  else if c = '\t' then "\\t"
  else if c.toNat = 8 then "\\b"
  else if c.toNat = 12 then "\\f"
  else if 32 ≤ c.toNat ∧ c.toNat ≤ 126 then c.toString
  else if c.toNat < 65536 then "\\u" ++ hex4 c.toNat
  else
    let n := c.toNat - 65536
    "\\u" ++ hex4 (55296 + n / 1024) ++ "\\u" ++ hex4 (n % 1024 + 56320)

/-- A JSON string literal, `json.dumps` style. -/
def jsonQuote (s : String) : String :=
  "\"" ++ String.join (s.data.map jsonEscapeChar) ++ "\""

/-- Insertion sort of object fields by key, the effect of
`json.dumps(..., sort_keys=True)` (Python sorts `str` keys by code
points, which is what `String` order compares). -/
def insertField (p : String × String) :
    List (String × String) → List (String × String)
  | [] => [p]
  | q :: qs => if p.1 ≤ q.1 then p :: q :: qs else q :: insertField p qs

/-- Sort serialized object fields by key. -/
def sortFields : List (String × String) → List (String × String)
  | [] => []
  | p :: ps => insertField p (sortFields ps)

mutual
/-- `json.dumps(v, sort_keys=True)` with CPython's default separators
`", "` and `": "` and default `ensure_ascii=True`. -/
def dumpsSorted : JsonVal → String
  | .str s => jsonQuote s
  | .num n => toString n
  | .bool b => if b then "true" else "false"
  | .null => "null"
  | .arr xs => "[" ++ String.intercalate ", " (dumpsArr xs) ++ "]"
  | .obj fs =>
      "\x7b" ++
      String.intercalate ", "
        ((sortFields (dumpsFields fs)).map
          (fun p => jsonQuote p.1 ++ ": " ++ p.2)) ++
      "\x7d"

/-- Serialize each array element. -/
def dumpsArr : List JsonVal → List String
  | [] => []
  | x :: xs => dumpsSorted x :: dumpsArr xs

/-- Serialize each object field's value, keeping its key. -/
def dumpsFields : List (String × JsonVal) → List (String × String)
  | [] => []
  | (k, v) :: fs => (k, dumpsSorted v) :: dumpsFields fs
end

/-! ### SHA-256 and HMAC-SHA256 (`hashlib.sha256`, `hmac.new`)

Bytes are `Nat`s below 256; 32-bit machine words are `Nat`s reduced
modulo `2 ^ 32` wherever overflow matters. -/

/-- Truncate to a 32-bit word. -/
def w32 (n : Nat) : Nat := n % 4294967296

/-- 32-bit right rotation. -/
def rotr32 (k x : Nat) : Nat := w32 ((x >>> k) ||| (x <<< (32 - k)))

/-- 32-bit complement. -/
def not32 (x : Nat) : Nat := 4294967295 ^^^ x

/-- SHA-256 round constants. -/
def sha256K : List Nat :=
  [1116352408, 1899447441, 3049323471, 3921009573, 961987163,
   1508970993, 2453635748, 2870763221, 3624381080, 310598401,
   607225278, 1426881987, 1925078388, 2162078206, 2614888103,
   3248222580, 3835390401, 4022224774, 264347078, 604807628,
   770255983, 1249150122, 1555081692, 1996064986, 2554220882,
   2821834349, 2952996808, 3210313671, 3336571891, 3584528711,
   113926993, 338241895, 666307205, 773529912, 1294757372,
   1396182291, 1695183700, 1986661051, 2177026350, 2456956037,
   2730485921, 2820302411, 3259730800, 3345764771, 3516065817,
   3600352804, 4094571909, 275423344, 430227734, 506948616,
   659060556, 883997877, 958139571, 1322822218, 1537002063,
   1747873779, 1955562222, 2024104815, 2227730452, 2361852424,
   2428436474, 2756734187, 3204031479, 3329325298]

/-- SHA-256 initial hash words. -/
def sha256H0 : List Nat :=
  [1779033703, 3144134277, 1013904242, 2773480762,
   1359893119, 2600822924, 528734635, 1541459225]

/-- SHA-256 `Ch` function. -/
def shaCh (x y z : Nat) : Nat := (x &&& y) ^^^ (not32 x &&& z)

/-- SHA-256 `Maj` function. -/
def shaMaj (x y z : Nat) : Nat := (x &&& y) ^^^ (x &&& z) ^^^ (y &&& z)

/-- SHA-256 big sigma 0. -/
def bigSigma0 (x : Nat) : Nat := rotr32 2 x ^^^ rotr32 13 x ^^^ rotr32 22 x

/-- SHA-256 big sigma 1. -/
def bigSigma1 (x : Nat) : Nat := rotr32 6 x ^^^ rotr32 11 x ^^^ rotr32 25 x

/-- SHA-256 small sigma 0. -/
def smallSigma0 (x : Nat) : Nat := rotr32 7 x ^^^ rotr32 18 x ^^^ (x >>> 3)

/-- SHA-256 small sigma 1. -/
def smallSigma1 (x : Nat) : Nat := rotr32 17 x ^^^ rotr32 19 x ^^^ (x >>> 10)

/-- Big-endian 8-byte rendering of a length in bits. -/
def be64 (n : Nat) : List Nat :=
  [n >>> 56 &&& 255, n >>> 48 &&& 255, n >>> 40 &&& 255, n >>> 32 &&& 255,
   n >>> 24 &&& 255, n >>> 16 &&& 255, n >>> 8 &&& 255, n &&& 255]

/-- Big-endian 4-byte rendering of a 32-bit word. -/
def be32 (n : Nat) : List Nat :=
  [n >>> 24 &&& 255, n >>> 16 &&& 255, n >>> 8 &&& 255, n &&& 255]

/-- SHA-256 message padding. -/
def sha256Pad (msg : List Nat) : List Nat :=
  let len := msg.length
  msg ++ [128] ++ List.replicate ((119 - len % 64) % 64) 0 ++ be64 (8 * len)

/-- Group bytes four at a time into big-endian 32-bit words. -/
def bytesToWords : List Nat → List Nat
  | a :: b :: c :: d :: rest =>
      ((a <<< 24) ||| (b <<< 16) ||| (c <<< 8) ||| d) :: bytesToWords rest
  | _ => []

/-- Split a padded message into 64-byte blocks. -/
def chunk64 (l : List Nat) : List (List Nat) :=
  (List.range (l.length / 64)).map (fun i => (l.drop (64 * i)).take 64)

/-- Extend 16 message words to the 64-entry SHA-256 schedule. -/
def sha256Schedule (ws : List Nat) : List Nat :=
  (List.range 48).foldl
    (fun acc _ =>
      let n := acc.length
      acc ++ [w32 (smallSigma1 (acc.getD (n - 2) 0) + acc.getD (n - 7) 0 +
                   smallSigma0 (acc.getD (n - 15) 0) + acc.getD (n - 16) 0)])
    ws

/-- SHA-256 working state. -/
structure Sha256St where
  a : Nat
  b : Nat
  c : Nat
  d : Nat
  e : Nat
  f : Nat
  g : Nat
  h : Nat

/-- One SHA-256 compression round; the pair carries the schedule word and
the round constant. -/
def sha256Round (s : Sha256St) (wk : Nat × Nat) : Sha256St :=
  let t1 := w32 (s.h + bigSigma1 s.e + shaCh s.e s.f s.g + wk.2 + wk.1)
  let t2 := w32 (bigSigma0 s.a + shaMaj s.a s.b s.c)
  { a := w32 (t1 + t2), b := s.a, c := s.b, d := s.c,
    e := w32 (s.d + t1), f := s.e, g := s.f, h := s.g }

/-- Compress one 64-byte block into the running hash words. -/
def sha256Compress (hs : List Nat) (block : List Nat) : List Nat :=
  let ws := sha256Schedule (bytesToWords block)
  let s0 : Sha256St :=
    { a := hs.getD 0 0, b := hs.getD 1 0, c := hs.getD 2 0, d := hs.getD 3 0,
      e := hs.getD 4 0, f := hs.getD 5 0, g := hs.getD 6 0, h := hs.getD 7 0 }
  let s := (ws.zip sha256K).foldl sha256Round s0
  [w32 (hs.getD 0 0 + s.a), w32 (hs.getD 1 0 + s.b),
   w32 (hs.getD 2 0 + s.c), w32 (hs.getD 3 0 + s.d),
   w32 (hs.getD 4 0 + s.e), w32 (hs.getD 5 0 + s.f),
   w32 (hs.getD 6 0 + s.g), w32 (hs.getD 7 0 + s.h)]

/-- SHA-256 digest of a byte list. -/
def sha256Bytes (msg : List Nat) : List Nat :=
  let hs := (chunk64 (sha256Pad msg)).foldl sha256Compress sha256H0
  (hs.map be32).foldr (fun x acc => x ++ acc) []

/-- HMAC-SHA256 with a 64-byte block size, as `hmac.new(key, msg,
hashlib.sha256)` computes it. -/
def hmacSha256 (key msg : List Nat) : List Nat :=
  let key := if key.length > 64 then sha256Bytes key else key
  let key := key ++ List.replicate (64 - key.length) 0
  let ipad := key.map (fun b => b ^^^ 54)
  let opad := key.map (fun b => b ^^^ 92)
  sha256Bytes (opad ++ sha256Bytes (ipad ++ msg))

/-- UTF-8 bytes of one character, as `str.encode("utf-8")` produces. -/
def utf8Char (c : Char) : List Nat :=
  let n := c.toNat
  if n < 128 then [n]
  else if n < 2048 then [192 ||| (n >>> 6), 128 ||| (n &&& 63)]
  else if n < 65536 then
    [224 ||| (n >>> 12), 128 ||| ((n >>> 6) &&& 63), 128 ||| (n &&& 63)]
  else
    [240 ||| (n >>> 18), 128 ||| ((n >>> 12) &&& 63),
     128 ||| ((n >>> 6) &&& 63), 128 ||| (n &&& 63)]

/-- UTF-8 encoding of a string. -/
def utf8Bytes (s : String) : List Nat := (s.data.map utf8Char).flatten

/-- Lower-case hexadecimal digest string, as `.hexdigest()` returns. -/
def bytesToHex (bs : List Nat) : String :=
  String.join (bs.map (fun b => hexDigit (b / 16 % 16) ++ hexDigit (b % 16)))

/-- `hmac.new(secret.encode("utf-8"), message.encode("utf-8"),
hashlib.sha256).hexdigest()`. -/
def hmacSha256Hex (secret message : String) : String :=
  bytesToHex (hmacSha256 (utf8Bytes secret) (utf8Bytes message))

/-! ### `worker/webhook_client.py` -/

/-- `_generate_signature(timestamp, body, secret)` (lines 29–47): the
HMAC-SHA256 hex signature over `"{timestamp}.{body}"`. -/
def _generate_signature (timestamp body secret : String) : String :=
  hmacSha256Hex secret (timestamp ++ "." ++ body)

/-- Python `a or b` over optional strings, as in
`webhook_url or os.getenv("WEBHOOK_URL")`: the left value wins when
truthy. -/
def pyOrStr (a b : Option String) : Option String :=
  if optStrTruthy a then a else b

/-- The HTTP request `send_webhook` hands to `httpx.Client.post`:
the exact body string (`content=body_json`) and the headers. -/
structure SentRequest where
  url : String
  content : String
  contentType : String
  signatureHeader : String
  timestampHeader : String

/-- Outcome of the `httpx` POST: a status code, an `httpx.RequestError`,
or some other raised exception. -/
inductive HttpOutcome where
  | status (code : Nat)
  | requestError (msg : String)
  | raised (msg : String)

/-- The four-key event object `send_webhook` builds and signs
(lines 97–102). -/
def webhookBodyObj (event_type project_id timestamp : String)
    (payload : JsonVal) : JsonVal :=
  .obj [("event_type", .str event_type), ("project_id", .str project_id),
        ("timestamp", .str timestamp), ("payload", payload)]

/-- `send_webhook` (lines 50–151).  Impurity made explicit: `envUrl` and
`envSecret` are the `WEBHOOK_URL` / `WEBHOOK_SECRET` environment values,
`httpxAvailable` the import guard, `now` the `datetime.utcnow()`
timestamp string, and `transport` the `httpx` POST.  Returns the Python
boolean result together with the request that was posted, if any. -/
def send_webhook (event_type project_id : String) (payload : JsonVal)
    (webhook_url webhook_secret envUrl envSecret : Option String)
    (httpxAvailable : Bool) (now : String)
    (transport : SentRequest → HttpOutcome) : Bool × Option SentRequest :=
  let url := pyOrStr webhook_url envUrl
  let secret := pyOrStr webhook_secret envSecret
  if !optStrTruthy url || !optStrTruthy secret then (false, none)
  else if !httpxAvailable then (false, none)
  else
    let timestamp := now
    let body_json := dumpsSorted (webhookBodyObj event_type project_id
      timestamp payload)
    let message := timestamp ++ "." ++ body_json
    let signature := hmacSha256Hex (secret.getD "") message
    let req : SentRequest :=
      { url := url.getD "", content := body_json,
        contentType := "application/json", signatureHeader := signature,
        timestampHeader := timestamp }
    match transport req with
    | .status code => ((code == 200 : Bool), some req)
    | .requestError _ => (false, some req)
    | .raised _ => (false, some req)

/-! ### `worker/task_storage.py`

A row of the `tasks` table and the payload dicts `save_task` /
`update_task_status` build are both partial records over the same
columns; a stored row is the accumulation of the payloads applied to it,
`none` meaning the column was never set. -/

/-- A payload dict for the `tasks` table (also used as the stored row):
exactly the keys the Python code ever puts in `data` / `update_data`. -/
structure TaskData where
  task_id : Option String := none
  project_id : Option String := none
  queue_name : Option String := none
  status : Option String := none
  updated_at : Option String := none
  agent_name : Option String := none
  context : Option String := none
  result : Option JsonVal := none
  error : Option String := none
  started_at : Option String := none
  completed_at : Option String := none

/-- Prefer the new field value when the payload carries one. -/
def ov {α : Type} (newVal oldVal : Option α) : Option α :=
  match newVal with
  | some v => some v
  | none => oldVal

/-- Supabase `.update(data)`: columns present in the payload overwrite,
absent columns are untouched. -/
def applyTaskData (row d : TaskData) : TaskData :=
  { task_id := ov d.task_id row.task_id,
    project_id := ov d.project_id row.project_id,
    queue_name := ov d.queue_name row.queue_name,
    status := ov d.status row.status,
    updated_at := ov d.updated_at row.updated_at,
    agent_name := ov d.agent_name row.agent_name,
    context := ov d.context row.context,
    result := ov d.result row.result,
    error := ov d.error row.error,
    started_at := ov d.started_at row.started_at,
    completed_at := ov d.completed_at row.completed_at }

/-- The arguments of a `save_task` call, one field per parameter of the
Python `def` (lines 52–61), with its defaults. -/
structure SaveTaskArgs where
  task_id : String
  project_id : Option String := none
  queue_name : String
  agent_name : Option String := none
  context : Option String := none
  status : String := "pending"
  result : Option JsonVal := none
  error : Option String := none

/-- `save_task` (lines 52–128) on the `tasks` table.  `configured` is
the `_init_supabase()` outcome, `now` the `datetime.utcnow().isoformat()`
value.  Note the stamp-once guards `not data.get("started_at")` /
`not data.get("completed_at")` interrogate the freshly built payload
dict — which never contains either key at that point — not the stored
row. -/
def save_task (args : SaveTaskArgs) (now : String) (configured : Bool)
    (table : List TaskData) : Bool × List TaskData :=
  if !configured then (false, table)
  else
    let data : TaskData :=
      { task_id := some args.task_id, project_id := args.project_id,
        queue_name := some args.queue_name, status := some args.status,
        updated_at := some now }
    let data := if optStrTruthy args.agent_name then
        { data with agent_name := args.agent_name } else data
    let data := if optStrTruthy args.context then
        { data with context := args.context } else data
    let data := if optJsonTruthy args.result then
        { data with result := args.result } else data
    let data := if optStrTruthy args.error then
        { data with error := args.error } else data
    let data :=
      if args.status = "processing" && !optStrTruthy data.started_at then
        { data with started_at := some now }
      else if (args.status = "completed" || args.status = "failed") &&
          !optStrTruthy data.completed_at then
        { data with completed_at := some now }
      else data
    if table.any (fun r => r.task_id == some args.task_id) then
      (true, table.map (fun r =>
        if r.task_id == some args.task_id then applyTaskData r data else r))
    else
      (true, table ++ [{ data with updated_at := none }])

/-- `update_task_status` (lines 131–191).  `meta` is the optional extra
metadata dict; the timestamp stamping here is unconditional on the
status match. -/
def update_task_status (task_id status : String) (result : Option JsonVal)
    (error : Option String) (meta : Option (List (String × JsonVal)))
    (now : String) (configured : Bool) (table : List TaskData) :
    Bool × List TaskData :=
  if !configured then (false, table)
  else
    let d : TaskData := { status := some status, updated_at := some now }
    let d := if status = "processing" then { d with started_at := some now }
      else if status = "completed" || status = "failed" then
        { d with completed_at := some now }
      else d
    let d := if optJsonTruthy result then { d with result := result } else d
    let d := if optStrTruthy error then { d with error := error } else d
    let d :=
      match meta with
      | none => d
      | some m =>
        if m.isEmpty then d
        else
          match d.result with
          | some (.obj fs) => { d with result := some (.obj (pyDictMerge fs m)) }
          | some r =>
              { d with result := some (.obj (pyDictMerge [("data", r)] m)) }
          | none => { d with result := some (.obj m) }
    (true, table.map (fun r =>
      if r.task_id == some task_id then applyTaskData r d else r))

/-! ### `worker/tasks.py`

The two Celery tasks.  A Python exception is a `PyErr`; a task body
returns `Except PyErr JsonVal` threaded through a `WorkerState` carrying
the `tasks` table, the queue of enqueued result-processing payloads and
the log of webhook-delivery attempts. -/

/-- The Python exceptions arising in the worker module. -/
inductive PyErr where
  | typeErr (kwarg : String)
  | valueErr (msg : String)
  | attrErr (msg : String)
  | importErr (msg : String)
  | excErr (msg : String)
deriving DecidableEq

/-- `str(e)` for a worker exception; for the keyword-argument
`TypeError` this is CPython's message text. -/
def PyErr.msg : PyErr → String
  | .typeErr k => "save_task() got an unexpected keyword argument '" ++
      k ++ "'"
  | .valueErr m => m
  | .attrErr m => m
  | .importErr m => m
  | .excErr m => m

/-- `type(e).__name__` for a worker exception. -/
def PyErr.typeName : PyErr → String
  | .typeErr _ => "TypeError"
  | .valueErr _ => "ValueError"
  | .attrErr _ => "AttributeError"
  | .importErr _ => "ImportError"
  | .excErr _ => "Exception"

/-- Worker-visible state: whether the Supabase client initialised, the
`tasks` table, the payloads enqueued onto `agent_results_queue` via
`process_agent_result_task.delay`, and the `(event_type, project_id)`
log of webhook deliveries attempted through the webhook client. -/
structure WorkerState where
  storeConfigured : Bool
  tasksTable : List TaskData
  resultQueue : List JsonVal
  webhookLog : List (String × String)

/-- The state-level effect a `send_webhook` call records.  `tasks.py`
contains no call to the webhook client, so no task path below invokes
this; it exists so that "how many webhook deliveries were attempted" is
a statement about `webhookLog`. -/
def recordWebhookAttempt (event_type project_id : String)
    (st : WorkerState) : WorkerState :=
  { st with webhookLog := st.webhookLog ++ [(event_type, project_id)] }

/-- The keyword parameters accepted by the Python `def save_task`
(task_storage.py lines 52–61). -/
def saveTaskParams : List String :=
  ["task_id", "project_id", "queue_name", "agent_name", "context",
   "status", "result", "error"]

/-- The first keyword of a call that `save_task` does not accept, if
any — exactly what makes CPython raise `TypeError` before the callee
body runs. -/
def unexpectedKwarg (callKwargs : List String) : Option String :=
  callKwargs.find? (fun k => !saveTaskParams.contains k)

/-- A keyword call of `save_task`: CPython first matches the call-site
keywords against the callee's parameter list, raising `TypeError` on an
unexpected keyword; only then does the body run. -/
def callSaveTask (callKwargs : List String) (args : SaveTaskArgs)
    (now : String) (st : WorkerState) : Except PyErr Bool × WorkerState :=
  match unexpectedKwarg callKwargs with
  | some k => (.error (.typeErr k), st)
  | none =>
      let (ok, table) := save_task args now st.storeConfigured st.tasksTable
      (.ok ok, { st with tasksTable := table })

/-- Keywords of the `save_task` call at tasks.py lines 58–66
(mark the record `processing`). -/
def initProcessingKwargs : List String :=
  ["task_id", "project_id", "queue_name", "task_type", "agent_name",
   "context", "status"]

/-- Keywords of the `save_task` call at tasks.py lines 107–116
(mark the record `completed`). -/
def initCompletedKwargs : List String :=
  ["task_id", "project_id", "queue_name", "task_type", "agent_name",
   "context", "status", "result"]

/-- Keywords of the `save_task` call at tasks.py lines 156–165
(mark the record `failed`). -/
def initFailedKwargs : List String :=
  ["task_id", "project_id", "queue_name", "task_type", "agent_name",
   "context", "status", "error"]

/-- Keywords of the `save_task` call at tasks.py lines 274–283
(result-processing success path). -/
def resultCompletedKwargs : List String :=
  ["task_id", "project_id", "queue_name", "task_type", "agent_name",
   "status", "result", "parent_task_id"]

/-- Keywords of the `save_task` call at tasks.py lines 299–309
(result-processing failure path). -/
def resultFailedKwargs : List String :=
  ["task_id", "project_id", "queue_name", "task_type", "agent_name",
   "status", "error", "result", "parent_task_id"]

/-- Outcome of `importlib.import_module(f"agents.{agent_name}")`
followed by `getattr(module, "process", None)` and the `process_func()`
call — the only genuinely external behaviour inside the initialization
task. -/
inductive AgentRun where
  | importFail (msg : String)
  | procMissing
  | procRaises (e : PyErr)
  | procReturns (v : JsonVal)

/-- tasks.py lines 68–140: run the agent, translating `ImportError` and
`AttributeError` (whether from the lookup or from `process()` itself)
into the `ValueError`s the nested `except` clauses re-raise. -/
def runAgentStep (agent_name : String) (run : AgentRun) :
    Except PyErr JsonVal :=
  match run with
  | .importFail m =>
      .error (.valueErr ("Could not import agent module '" ++ agent_name ++
        "': " ++ m))
  | .procMissing =>
      .error (.valueErr ("Agent '" ++ agent_name ++
        "' is missing required 'process' function: Agent '" ++ agent_name ++
        "' does not have a 'process' function"))
  | .procRaises e =>
      match e with
      | .importErr m =>
          .error (.valueErr ("Could not import agent module '" ++
            agent_name ++ "': " ++ m))
      | .attrErr m =>
          .error (.valueErr ("Agent '" ++ agent_name ++
            "' is missing required 'process' function: " ++ m))
      | e => .error e
  | .procReturns v => .ok v

/-- The `except Exception` handler of `agent_initialization_task`
(tasks.py lines 142–192): record the failure, enqueue a synthetic
failure payload, re-raise the original error.  A `TypeError` raised by
the `save_task` call inside the handler propagates immediately, skipping
both the enqueue and the re-raise. -/
def agentInitFailureHandler (project_id context agent_name taskId now :
    String) (e : PyErr) (st : WorkerState) :
    Except PyErr JsonVal × WorkerState :=
  let error_details : JsonVal := .obj
    [("original_task_id", .str taskId), ("agent_name", .str agent_name),
     ("original_context", .str context), ("error_message", .str e.msg),
     ("error_type", .str e.typeName)]
  let error_context := "Agent '" ++ agent_name ++ "' failed: " ++ e.msg ++
    ". Original context: " ++ context.take 200 ++ "..."
  match callSaveTask initFailedKwargs
      { task_id := taskId, project_id := some project_id,
        queue_name := "agent_initialization_queue",
        agent_name := some agent_name, context := some context,
        status := "failed", error := some e.msg } now st with
  | (.error e2, st1) => (.error e2, st1)
  | (.ok _, st1) =>
      let error_result : JsonVal := .obj
        [("status", .str "failed"), ("project_id", .str project_id),
         ("agent_name", .str agent_name), ("context", .str error_context),
         ("task_id", .str taskId), ("error", .str e.msg),
         ("error_details", error_details)]
      let st2 := { st1 with resultQueue := st1.resultQueue ++ [error_result] }
      (.error e, st2)

/-- `agent_initialization_task` (tasks.py lines 25–192).  `taskId` is
the Celery-issued `self.request.id`, `run` the external agent-execution
behaviour, `now` the timestamp the storage layer stamps. -/
def agent_initialization_task (project_id context agent_name taskId now :
    String) (run : AgentRun) (st : WorkerState) :
    Except PyErr JsonVal × WorkerState :=
  match callSaveTask initProcessingKwargs
      { task_id := taskId, project_id := some project_id,
        queue_name := "agent_initialization_queue",
        agent_name := some agent_name, context := some context,
        status := "processing" } now st with
  | (.error e, st1) =>
      agentInitFailureHandler project_id context agent_name taskId now e st1
  | (.ok _, st1) =>
      match runAgentStep agent_name run with
      | .error e =>
          agentInitFailureHandler project_id context agent_name taskId now
            e st1
      | .ok agent_result =>
          let result : JsonVal := .obj
            [("status", .str "completed"), ("project_id", .str project_id),
             ("agent_name", .str agent_name), ("context", .str context),
             ("task_id", .str taskId), ("agent_result", agent_result)]
          match callSaveTask initCompletedKwargs
              { task_id := taskId, project_id := some project_id,
                queue_name := "agent_initialization_queue",
                agent_name := some agent_name, context := some context,
                status := "completed", result := some result } now st1 with
          | (.error e, st2) =>
              agentInitFailureHandler project_id context agent_name taskId
                now e st2
          | (.ok _, st2) =>
              let st3 :=
                { st2 with resultQueue := st2.resultQueue ++ [result] }
              (.ok result, st3)

/-- `result.get(k)` on the payload dict. -/
def jget : JsonVal → String → Option JsonVal
  | .obj fs, k => dictGet fs k
  | _, _ => none

/-- `result.get(k)` when the value is used as a string. -/
def jgetStr (v : JsonVal) (k : String) : Option String :=
  match jget v k with
  | some (.str s) => some s
  | _ => none

/-- `str(x)` on a payload value as used in log/message interpolation
(`None` when the key was absent); non-scalar values are approximated by
their JSON rendering. -/
def pyStrOfOpt : Option JsonVal → String
  | none => "None"
  | some (.str s) => s
  | some (.num n) => toString n
  | some (.bool b) => if b then "True" else "False"
  | some .null => "None"
  | some v => dumpsSorted v

/-- `process_agent_result_task` (tasks.py lines 195–316).  Processes a
completed/failed agent payload: builds the processed summary, persists
it via `save_task`, and on an exception persists a failure record and
re-raises — a `TypeError` from the failure-path `save_task` call itself
propagates instead.  No statement in the function body invokes the
webhook client. -/
def process_agent_result_task (result : JsonVal) (selfTaskId now : String)
    (st : WorkerState) : Except PyErr JsonVal × WorkerState :=
  -- `original_task_id`: the value Python evaluates and passes as the
  -- `parent_task_id=` keyword of both `save_task` call sites below; the
  -- callee has no such parameter, so the value never lands anywhere.
  let _original_task_id :=
    if result.truthy then jget result "task_id" else none
  let project_id := jget result "project_id"
  let agent_name := jget result "agent_name"
  let processed_result : JsonVal := .obj
    [("status", .str "processed"),
     ("result_id", (jget result "task_id").getD .null),
     ("original_task_id", (jget result "task_id").getD .null),
     ("agent_name", agent_name.getD .null),
     ("project_id", project_id.getD .null),
     ("message", .str ("Result processed for agent " ++
        pyStrOfOpt agent_name))]
  let result_to_save : JsonVal := .obj
    [("processed_summary", processed_result), ("original_result", result)]
  match callSaveTask resultCompletedKwargs
      { task_id := selfTaskId,
        project_id := (match project_id with
          | some (.str s) => some s
          | _ => none),
        queue_name := "agent_results_queue",
        agent_name := (match agent_name with
          | some (.str s) => some s
          | _ => none),
        status := "completed", result := some result_to_save } now st with
  | (.ok _, st1) => (.ok processed_result, st1)
  | (.error e, st1) =>
      let error_info : JsonVal := .obj
        [("processing_error", .str e.msg),
         ("error_type", .str e.typeName),
         ("original_result", if result.truthy then result else .null)]
      match callSaveTask resultFailedKwargs
          { task_id := selfTaskId,
            project_id := (if result.truthy then
              (match jget result "project_id" with
                | some (.str s) => some s
                | some _ => none
                | none => some "unknown")
              else some "unknown"),
            queue_name := "agent_results_queue",
            agent_name := (match agent_name with
              | some (.str s) => some s
              | _ => none),
            status := "failed", error := some e.msg,
            result := some error_info } now st1 with
      | (.error e2, st2) => (.error e2, st2)
      | (.ok _, st2) => (.error e, st2)

/-! ### `agents/models.py` -/

/-- The value space of the pydantic field annotation
`Literal["local", "remote"]`: pydantic rejects any other string at
construction time, so a well-typed `AgentDefinition` carries exactly one
of these two values. -/
inductive ExecutionType where
  | localExec
  | remoteExec
deriving DecidableEq

/-- The Python string a validated `execution_type` field holds. -/
def ExecutionType.pyStr : ExecutionType → String
  | .localExec => "local"
  | .remoteExec => "remote"

/-- `AgentDefinition` (models.py lines 5–17), with the model's declared
default `execution_type = "local"`. -/
structure AgentDefinition where
  name : String
  role : String
  description : String
  goal : String
  requirements : List String
  artifacts : List String
  requires_approval : Bool
  execution_type : ExecutionType := .localExec
  s3_bucket_path : Option String := none
  fly_machine_id : Option String := none
deriving DecidableEq

/-! ### `agents/registry.py` -/

/-- The in-memory `_agents` dict, keyed by `agent.name`. -/
abbrev Registry : Type := List (String × AgentDefinition)

/-- `AgentRegistry.get_agent` / module-level `get_agent`. -/
def get_agent (reg : Registry) (name : String) : Option AgentDefinition :=
  dictGet reg name

/-- The two `ValueError` raise sites of `register_agent`, distinguished
by site as the specification's taxonomy does (`ValidationError` for the
empty-name raise at line 71, `ConflictError` for the duplicate-name
raise at line 79). -/
inductive RegErr where
  | validationErr (msg : String)
  | conflictErr (msg : String)
deriving DecidableEq

/-- A row of the `agents` store table: the columns
`_sync_to_supabase` writes (registry.py lines 178–186). -/
structure AgentRow where
  name : String
  role : String
  description : String
  goal : String
  requirements : List String
  artifacts : List String
  requires_approval : Bool
deriving DecidableEq

/-- The `agents` table. -/
abbrev AgentStore : Type := List AgentRow

/-- A write issued against the `agents` table. -/
inductive AgentWrite where
  | insertW (name : String)
  | updateW (name : String)
deriving DecidableEq

/-- The row `_sync_to_supabase` builds from a definition. -/
def agentRowOf (a : AgentDefinition) : AgentRow :=
  { name := a.name, role := a.role, description := a.description,
    goal := a.goal, requirements := a.requirements,
    artifacts := a.artifacts, requires_approval := a.requires_approval }

/-- The field-level diff of `_sync_to_supabase` (registry.py lines
200–208): update only when some synced column differs. -/
def needsUpdate (row : AgentRow) (a : AgentDefinition) : Bool :=
  row.role != a.role || row.description != a.description ||
  row.goal != a.goal || row.requirements != a.requirements ||
  row.artifacts != a.artifacts || row.requires_approval != a.requires_approval

/-- Update the first row carrying the agent's name — the code updates by
the `id` of `existing.data[0]`, the first row the select returned. -/
def updateFirstRow : AgentStore → AgentDefinition → AgentStore
  | [], _ => []
  | r :: rs, a =>
      if r.name == a.name then agentRowOf a :: rs
      else r :: updateFirstRow rs a

/-- `_sync_to_supabase` (registry.py lines 169–254): read the existing
row by name, insert when absent, update only when the diff is non-empty.
The store embedding is total, so the `except` branches at lines 222–254
(transport/RLS failures) are unreachable and not modelled here; a failing
transport is modelled at the callers through their `syncFails` flag. -/
def _sync_to_supabase (a : AgentDefinition) (store : AgentStore) :
    AgentStore × List AgentWrite :=
  match store.find? (fun r => r.name == a.name) with
  | some row =>
      if needsUpdate row a then (updateFirstRow store a, [.updateW a.name])
      else (store, [])
  | none => (store ++ [agentRowOf a], [.insertW a.name])

/-- The conflict scan of `register_agent` (registry.py lines 74–79): the
first existing entry whose lower-cased key equals the lower-cased,
stripped new name while the key differs from the new name. -/
def conflictingEntry (reg : Registry) (a : AgentDefinition) :
    Option (String × AgentDefinition) :=
  let normalized := pyStrip (pyLower a.name)
  reg.find? (fun p => pyLower p.1 == normalized && p.1 != a.name)

/-- `register_agent` (registry.py lines 55–90).  `cfg` is the Supabase
client guard at line 84; `syncFails` models the store sync raising, which
the `except` at lines 87–88 catches and logs (the store is then left as
it was).  The registry outcome never depends on either flag. -/
def register_agent (agent : AgentDefinition) (reg : Registry)
    (store : AgentStore) (cfg syncFails : Bool) :
    Except RegErr Unit × Registry × AgentStore :=
  if agent.name = "" || pyStrip agent.name = "" then
    (.error (.validationErr "Agent name cannot be empty"), reg, store)
  else
    match conflictingEntry reg agent with
    | some p =>
        (.error (.conflictErr ("Agent name '" ++ agent.name ++
          "' conflicts with existing agent '" ++ p.1 ++
          "' (names must be unique)")), reg, store)
    | none =>
        let reg' := dictSet reg agent.name agent
        if cfg && !syncFails then
          (.ok (), reg', (_sync_to_supabase agent store).1)
        else (.ok (), reg', store)

/-- Fold `_sync_to_supabase` over the registered definitions, collecting
every write issued (the loop of `sync_all_to_supabase`, lines 283–289). -/
def syncList (agents : List AgentDefinition) (store : AgentStore) :
    AgentStore × List AgentWrite :=
  match agents with
  | [] => (store, [])
  | a :: rest =>
      let r1 := _sync_to_supabase a store
      let r2 := syncList rest r1.1
      (r2.1, r1.2 ++ r2.2)

/-- The summary dict `sync_all_to_supabase` returns. -/
structure SyncReport where
  synced : Nat
  failed : Nat
  errors : List String
  total : Option Nat
  message : String
deriving DecidableEq

/-- `sync_all_to_supabase` (registry.py lines 263–297), instrumented
with the list of writes issued against the `agents` table.  With a total
store embedding no per-agent sync raises, so `failed` is zero on the
configured path. -/
def sync_all_to_supabase (cfg : Bool) (reg : Registry)
    (store : AgentStore) : AgentStore × List AgentWrite × SyncReport :=
  if !cfg then
    (store, [],
     { synced := 0, failed := reg.length,
       errors := ["Supabase client not initialized"], total := none,
       message := "Supabase not configured - agents not synced" })
  else
    let (store', writes) := syncList (reg.map (fun p => p.2)) store
    (store', writes,
     { synced := reg.length, failed := 0, errors := [],
       total := some reg.length,
       message := "Synced " ++ toString reg.length ++ " of " ++
         toString reg.length ++ " agents to Supabase" })

/-! ### `worker/celery_app.py` -/

/-- `celery_app.conf.task_routes` (celery_app.py lines 44–47): the queue
each worker task is routed to. -/
def task_routes : List (String × String) :=
  [("worker.tasks.agent_initialization", "agent_initialization_queue"),
   ("worker.tasks.process_agent_result", "agent_results_queue")]

/-- The queue name local agent-initialization work is routed to,
read off `task_routes`. -/
def agentInitQueueName : String :=
  (dictGet task_routes "worker.tasks.agent_initialization").getD ""

/-! ### `worker/session_manager.py` -/

/-- The two `ValueError` raise sites of `route_agent_task`,
distinguished by site as the specification's taxonomy does
(`NotFoundError` for line 133, `InvalidConfigurationError` for
lines 174–177). -/
inductive RouteErr where
  | agentNotFound (agent_name : String)
  | invalidExecutionType (etype agent_name : String)
deriving DecidableEq

/-- The `routing_info` dict. -/
structure RoutingInfo where
  execution_type : String
  route_to : String
  session_key : String
  fly_machine_id : Option String
  message : String
deriving DecidableEq

/-- A row of the `agent_sessions` table: the columns `_register_session`
can insert (plus `completed_at`, written only by updates).  `none` means
the column was never set by the session manager. -/
structure SessRow where
  session_key : String
  project_id : String
  agent_name : String
  task_id : String
  execution_type : String
  worker_id : String
  status : String
  context : Option String := none
  routing_info : Option RoutingInfo := none
  fly_machine_id : Option String := none
  completed_at : Option String := none
deriving DecidableEq

/-- An operation issued against the `agent_sessions` table. -/
inductive SessStoreOp where
  | insertRow (row : SessRow)
  | updateRow (key : String) (data : List (String × String))
  | selectRows (field value : String)
  | deleteRow (key : String)
deriving DecidableEq

/-- Session-manager state: the Supabase guard, the in-memory
`_active_sessions` dict (each session itself a string-valued dict), the
`agent_sessions` table, and the log of operations issued against it. -/
structure SessionState where
  storeConfigured : Bool
  memory : List (String × List (String × String))
  table : List SessRow
  storeOps : List SessStoreOp
deriving DecidableEq

/-- Apply an update payload to a stored session row; only the columns
the session manager ever places in an update payload are materialised. -/
def applySessUpdate (r : SessRow) (data : List (String × String)) :
    SessRow :=
  data.foldl (fun r kv =>
    if kv.1 = "status" then { r with status := kv.2 }
    else if kv.1 = "completed_at" then { r with completed_at := some kv.2 }
    else if kv.1 = "fly_machine_id" then
      { r with fly_machine_id := some kv.2 }
    else r) r

/-- `_register_session` (session_manager.py lines 319–418): store the
session dict in memory, then insert a row into `agent_sessions` when the
client is configured (an insert failure is caught and logged, leaving
the in-memory entry). -/
def _register_session (session_key project_id agent_name task_id
    execution_type worker_id status : String) (context : Option String)
    (routing_info : Option RoutingInfo) (fly_machine_id : Option String)
    (now : String) (st : SessionState) : SessionState :=
  let memEntry : List (String × String) :=
    [("project_id", project_id), ("agent_name", agent_name),
     ("task_id", task_id), ("execution_type", execution_type),
     ("worker_id", worker_id), ("status", status), ("created_at", now)]
  let st := { st with memory := dictSet st.memory session_key memEntry }
  if st.storeConfigured then
    let row : SessRow :=
      { session_key := session_key, project_id := project_id,
        agent_name := agent_name, task_id := task_id,
        execution_type := execution_type, worker_id := worker_id,
        status := status,
        context := if optStrTruthy context then context else none,
        routing_info := if routing_info.isSome then routing_info else none,
        fly_machine_id := if optStrTruthy fly_machine_id then
          fly_machine_id else none }
    { st with table := st.table ++ [row],
              storeOps := st.storeOps ++ [.insertRow row] }
  else st

/-- `_route_to_celery` (session_manager.py lines 179–228). -/
def _route_to_celery (project_id agent_name task_id context session_key
    now : String) (st : SessionState) : RoutingInfo × SessionState :=
  let routing_info : RoutingInfo :=
    { execution_type := "local", route_to := "celery",
      session_key := session_key, fly_machine_id := none,
      message := "Local agent '" ++ agent_name ++
        "' routed to Celery worker" }
  let st := _register_session session_key project_id agent_name task_id
    "local" "celery" "routed" (some context) (some routing_info) none now st
  (routing_info, st)

/-- `_route_to_fly_machine` (session_manager.py lines 230–317), with its
placeholder machine handle synthesised from agent and project. -/
def _route_to_fly_machine (project_id agent_name task_id context
    session_key now : String) (st : SessionState) :
    RoutingInfo × SessionState :=
  let fly_machine_id := "fly_machine_" ++ agent_name ++ "_" ++ project_id
  let routing_info : RoutingInfo :=
    { execution_type := "remote", route_to := "fly_machine",
      session_key := session_key, fly_machine_id := some fly_machine_id,
      message := "Remote agent '" ++ agent_name ++
        "' routed to Fly machine (placeholder: " ++ fly_machine_id ++ ")" }
  let st := _register_session session_key project_id agent_name task_id
    "remote" fly_machine_id "routed" (some context) (some routing_info)
    (some fly_machine_id) now st
  (routing_info, st)

/-- `route_agent_task` (session_manager.py lines 98–177): look the agent
up, fail when absent, branch on the execution type string, registering a
`routed` session before returning. -/
def route_agent_task (reg : Registry) (project_id agent_name task_id
    context now : String) (st : SessionState) :
    Except RouteErr RoutingInfo × SessionState :=
  match get_agent reg agent_name with
  | none => (.error (.agentNotFound agent_name), st)
  | some d =>
      let session_key := project_id ++ ":" ++ agent_name ++ ":" ++ task_id
      if d.execution_type.pyStr = "local" then
        let r := _route_to_celery project_id agent_name task_id
          context session_key now st
        (.ok r.1, r.2)
      else if d.execution_type.pyStr = "remote" then
        let r := _route_to_fly_machine project_id agent_name
          task_id context session_key now st
        (.ok r.1, r.2)
      else
        (.error (.invalidExecutionType d.execution_type.pyStr agent_name),
         st)

/-- `get_session` (session_manager.py lines 420–455): memory first, then
a keyed select against the store.  The dict built from a store row omits
the database-assigned `created_at` column, which the embedding does not
model. -/
def get_session (session_key : String) (st : SessionState) :
    Option (List (String × String)) × SessionState :=
  match dictGet st.memory session_key with
  | some s => (some s, st)
  | none =>
      if st.storeConfigured then
        let st' := { st with storeOps := st.storeOps ++
          [.selectRows "session_key" session_key] }
        match st.table.find? (fun r => r.session_key == session_key) with
        | some r =>
            (some [("project_id", r.project_id),
                   ("agent_name", r.agent_name), ("task_id", r.task_id),
                   ("execution_type", r.execution_type),
                   ("worker_id", r.worker_id), ("status", r.status)], st')
        | none => (none, st')
      else (none, st)

/-- `update_session_status` (session_manager.py lines 457–532): merge
status and extra fields into the in-memory session when present, then
unconditionally issue a keyed update against the store — stamping
`completed_at` exactly when the new status is terminal.  Never a
delete. -/
def update_session_status (session_key status : String)
    (kwargs : List (String × String)) (now : String) (st : SessionState) :
    Bool × SessionState :=
  let st :=
    if st.memory.any (fun p => p.1 == session_key) then
      { st with memory := st.memory.map (fun p =>
          if p.1 == session_key then
            (p.1, pyDictMerge (dictSet p.2 "status" status) kwargs)
          else p) }
    else st
  if st.storeConfigured then
    let data := pyDictMerge [("status", status)] kwargs
    let data := if status = "completed" || status = "failed" then
        dictSet data "completed_at" now
      else data
    let matched := st.table.any (fun r => r.session_key == session_key)
    let st := { st with
      table := st.table.map (fun r =>
        if r.session_key == session_key then applySessUpdate r data else r),
      storeOps := st.storeOps ++ [.updateRow session_key data] }
    (matched, st)
  else
    (st.memory.any (fun p => p.1 == session_key), st)

/-- Result of the two project/agent listing reads: rows straight from
the store, or the in-memory fallback dicts. -/
inductive SessionsResult where
  | fromStore (rows : List SessRow)
  | fromMemory (sessions : List (List (String × String)))

/-- `get_active_sessions_for_project` (session_manager.py lines
534–561): a filtered select, falling back to the in-memory map when the
store is unconfigured or returns nothing (the store's `created_at`
ordering is not modelled). -/
def get_active_sessions_for_project (project_id : String)
    (st : SessionState) : SessionsResult × SessionState :=
  let fallback := (st.memory.filter (fun p =>
    dictGet p.2 "project_id" == some project_id)).map (fun p => p.2)
  if st.storeConfigured then
    let st' := { st with storeOps := st.storeOps ++
      [.selectRows "project_id" project_id] }
    let rows := st.table.filter (fun r => r.project_id == project_id)
    if !rows.isEmpty then (.fromStore rows, st')
    else (.fromMemory fallback, st')
  else (.fromMemory fallback, st)

/-- `get_active_sessions_for_agent` (session_manager.py lines 563–590),
symmetric to the project listing. -/
def get_active_sessions_for_agent (agent_name : String)
    (st : SessionState) : SessionsResult × SessionState :=
  let fallback := (st.memory.filter (fun p =>
    dictGet p.2 "agent_name" == some agent_name)).map (fun p => p.2)
  if st.storeConfigured then
    let st' := { st with storeOps := st.storeOps ++
      [.selectRows "agent_name" agent_name] }
    let rows := st.table.filter (fun r => r.agent_name == agent_name)
    if !rows.isEmpty then (.fromStore rows, st')
    else (.fromMemory fallback, st')
  else (.fromMemory fallback, st)

/-! ### Helper observations and concrete fixtures -/

/-- Whether a session-store operation is a delete. -/
def SessStoreOp.isDelete : SessStoreOp → Bool
  | .deleteRow _ => true
  | _ => false

/-- Whether a session-store operation is an update keyed by `k`. -/
def SessStoreOp.isUpdateKeyed (op : SessStoreOp) (k : String) : Bool :=
  match op with
  | .updateRow k' _ => k' == k
  | _ => false

/-- The operations a session-manager call appended to the log. -/
def newSessOps (after before : SessionState) : List SessStoreOp :=
  after.storeOps.drop before.storeOps.length

/-- Whether a routing result is the invalid-execution-type error of
`route_agent_task`'s final `else` branch. -/
def routeResultInvalid : Except RouteErr RoutingInfo → Bool
  | .error (.invalidExecutionType _ _) => true
  | _ => false

/-- A representative registered local agent (the `qa` agent of
`agents/qa/definition.py`; its definition omits `execution_type`, so the
model default `local` applies). -/
def demoQa : AgentDefinition :=
  { name := "qa", role := "Quality Assurance Engineer",
    description := "Tests the application across all user flows, features, browsers, and device types.",
    goal := "Ensure the MVP is bug-free, stable, and meets acceptance criteria.",
    requirements := ["production_codebase", "prd_document"],
    artifacts := ["qa_test_report", "bug_fixes"],
    requires_approval := false }

/-- A second registered agent with different synced fields. -/
def demoDev : AgentDefinition :=
  { name := "developer", role := "Software Developer",
    description := "Builds the product.", goal := "Ship the MVP.",
    requirements := ["prd_document"], artifacts := ["production_codebase"],
    requires_approval := true }

/-- A registry holding the two demo agents, keyed by name as
`register_agent` stores them. -/
def demoRegistry : Registry := [("qa", demoQa), ("developer", demoDev)]

/-- `demoQa` registered under a name with trailing whitespace and upper
case — accepted by the validation check, since the stripped name is
non-empty. -/
def qaUpperSpace : AgentDefinition := { demoQa with name := "QA " }

/-- The same agent name differing from `qaUpperSpace.name` only by
letter case. -/
def qaLowerSpace : AgentDefinition := { demoQa with name := "qa " }

/-- An empty session-manager state with the store configured. -/
def sessDemo : SessionState :=
  { storeConfigured := true, memory := [], table := [], storeOps := [] }

/-- A stored task row as first created with `pending` status. -/
def pendingRow : TaskData :=
  { task_id := some "t1", project_id := some "p1",
    queue_name := some "agent_initialization_queue",
    status := some "pending" }

/-- The arguments of a `processing`-status `save_task` call for the same
task. -/
def saveProcArgs : SaveTaskArgs :=
  { task_id := "t1", project_id := some "p1",
    queue_name := "agent_initialization_queue", agent_name := some "qa",
    context := some "ctx", status := "processing" }

/-- The `agent_sessions` row the routing scenario
`projectId="p1", agentName="qa", taskId="t1"` inserts. -/
def c4InsertedRow : SessRow :=
  { session_key := "p1:qa:t1", project_id := "p1", agent_name := "qa",
    task_id := "t1", execution_type := "local", worker_id := "celery",
    status := "routed", context := some "ctx",
    routing_info := some
      { execution_type := "local", route_to := "celery",
        session_key := "p1:qa:t1", fly_machine_id := none,
        message := "Local agent 'qa' routed to Celery worker" },
    fly_machine_id := none, completed_at := none }

/-! ## General dictionary lemmas -/

/-- After in-place replacement of the entries keyed `k`, the first entry
keyed `k` is the replacement (provided one exists). -/
theorem find?_map_set_self {α : Type} (d : List (String × α)) (k : String)
    (v : α) (h : d.any (fun p => p.1 == k) = true) :
    (d.map (fun p => if p.1 == k then (k, v) else p)).find?
      (fun p => p.1 == k) = some (k, v) := by
  induction d with
  | nil => simp at h
  | cons q d ih =>
      simp only [List.map_cons]
      by_cases hq : (q.1 == k) = true
      · rw [if_pos hq]
        simp [List.find?_cons]
      · rw [if_neg hq]
        simp only [List.find?_cons, hq]
        exact ih (by simpa [hq] using h)

/-- In-place replacement of the entries keyed `k` does not change the
first entry found under a different key. -/
theorem find?_map_set_other {α : Type} (d : List (String × α))
    (k k' : String) (v : α) (h : (k == k') = false) :
    (d.map (fun p => if p.1 == k then (k, v) else p)).find?
      (fun p => p.1 == k') = d.find? (fun p => p.1 == k') := by
  induction d with
  | nil => simp
  | cons q d ih =>
      simp only [List.map_cons]
      by_cases hq : (q.1 == k) = true
      · have hq2 : (q.1 == k') = false := by
          simp only [beq_iff_eq] at hq
          simpa [hq] using h
        rw [if_pos hq]
        simp only [List.find?_cons, h, hq2]
        exact ih
      · rw [if_neg hq]
        by_cases hq' : (q.1 == k') = true
        · simp only [List.find?_cons, hq']
        · simp only [List.find?_cons, hq',
            Bool.false_eq_true]
          exact ih

/-- Appending an entry keyed `k` to a list with no entry keyed `k`
makes it the first one found. -/
theorem find?_append_single_self {α : Type} (d : List (String × α))
    (k : String) (v : α) (h : d.any (fun p => p.1 == k) = false) :
    (d ++ [(k, v)]).find? (fun p => p.1 == k) = some (k, v) := by
  induction d with
  | nil => simp
  | cons q d ih =>
      simp only [List.any_cons, Bool.or_eq_false_iff] at h
      rw [List.cons_append]
      simp only [List.find?_cons, h.1]
      exact ih h.2

/-- Appending an entry keyed `k` does not change the first entry found
under a different key. -/
theorem find?_append_single_other {α : Type} (d : List (String × α))
    (k k' : String) (v : α) (h : (k == k') = false) :
    (d ++ [(k, v)]).find? (fun p => p.1 == k') =
      d.find? (fun p => p.1 == k') := by
  induction d with
  | nil => simp [List.find?, h]
  | cons q d ih =>
      rw [List.cons_append]
      by_cases hq : (q.1 == k') = true
      · simp only [List.find?_cons, hq]
      · simp only [List.find?_cons, hq, Bool.false_eq_true]
        exact ih

/-- Setting a key makes it readable. -/
theorem dictGet_dictSet_self {α : Type} (d : List (String × α)) (k : String)
    (v : α) : dictGet (dictSet d k v) k = some v := by
  unfold dictSet dictGet
  by_cases h : d.any (fun p => p.1 == k)
  · rw [if_pos h, find?_map_set_self d k v h]
    rfl
  · rw [if_neg h,
      find?_append_single_self d k v (Bool.eq_false_iff.mpr h)]
    rfl

/-- Setting one key leaves the others unchanged. -/
theorem dictGet_dictSet_other {α : Type} (d : List (String × α))
    (k k' : String) (v : α) (h : k' ≠ k) :
    dictGet (dictSet d k v) k' = dictGet d k' := by
  have hb : (k == k') = false := by
    simp only [beq_eq_false_iff_ne, ne_eq]
    exact fun hc => h hc.symm
  unfold dictSet dictGet
  by_cases ha : d.any (fun p => p.1 == k)
  · rw [if_pos ha, find?_map_set_other d k k' v hb]
  · rw [if_neg ha, find?_append_single_other d k k' v hb]

/-- Merging pairs that avoid a key leaves that key unreadable when it
was unreadable before. -/
theorem dictGet_pyDictMerge_none {α : Type} (kvs : List (String × α))
    (d : List (String × α)) (k : String) (h1 : dictGet d k = none)
    (h2 : kvs.all (fun p => p.1 ≠ k)) :
    dictGet (pyDictMerge d kvs) k = none := by
  induction kvs generalizing d with
  | nil => simpa [pyDictMerge]
  | cons kv kvs ih =>
      simp only [List.all_cons, Bool.and_eq_true, decide_eq_true_eq] at h2
      have step : dictGet (dictSet d kv.1 kv.2) k = none := by
        rw [dictGet_dictSet_other d kv.1 k kv.2 (fun hc => h2.1 hc.symm)]
        exact h1
      simpa [pyDictMerge] using ih (dictSet d kv.1 kv.2) step (by
        simp only [List.all_eq_true, decide_eq_true_eq] at h2 ⊢
        exact h2.2)

/-! ## C1 — the result-processing task and webhook delivery -/

/-- C1.  The claim says every `process_agent_result_task` invocation
attempts exactly one webhook delivery, with delivery failures contained.
On the code, no execution path of the task touches the webhook client at
all — the webhook-attempt log is left exactly as it was, zero deliveries
are attempted — and, further, every invocation raises `TypeError`
because both `save_task` call sites pass the keywords `task_type` and
`parent_task_id`, which `save_task()` does not accept; the failure-path
`save_task` raises the same `TypeError` out of the handler.  The state
(tasks table, result queue, webhook log) is returned untouched. -/
theorem process_agent_result_task_attempts_no_webhook (result : JsonVal)
    (selfTaskId now : String) (st : WorkerState) :
    process_agent_result_task result selfTaskId now st =
      (.error (.typeErr "task_type"), st) ∧
    (process_agent_result_task result selfTaskId now st).2.webhookLog =
      st.webhookLog ∧
    (process_agent_result_task result selfTaskId now st).2.tasksTable =
      st.tasksTable :=
  ⟨rfl, rfl, rfl⟩

/-! ## C2 — the initialization task's failure path -/

/-- C2.  The claim says an initialization task whose agent execution
raises ends with a `failed` record containing the original message, one
enqueued failure payload, and the original error re-raised.  On the
code, the very first `save_task` call passes the unexpected keyword
`task_type`, so `TypeError` is raised before the agent ever runs; inside
the `except` handler the failure-path `save_task` call raises the same
`TypeError`, which propagates — no record is written, no
result-processing payload is enqueued, and the propagated error is the
`TypeError`, not the agent's. -/
theorem agent_initialization_task_raises_typeerror_before_agent_runs
    (project_id context agent_name taskId now : String) (run : AgentRun)
    (st : WorkerState) :
    agent_initialization_task project_id context agent_name taskId now
      run st = (.error (.typeErr "task_type"), st) ∧
    (agent_initialization_task project_id context agent_name taskId now
      run st).2.resultQueue = st.resultQueue ∧
    (agent_initialization_task project_id context agent_name taskId now
      run st).2.tasksTable = st.tasksTable :=
  ⟨rfl, rfl, rfl⟩

/-! ## C3 — timestamp stamping in the task store -/

/-- C3.  The claim says `completedAt` (and `startedAt`) are stamped on
the first transition only and left unchanged by later update calls.  On
the code, a second terminal `update_task_status` call overwrites
`completed_at` with the new clock value, and a second `processing`
`save_task` call overwrites `started_at` — the stamp-once guard in
`save_task` inspects the freshly built payload dict rather than the
stored row, and `update_task_status` stamps unconditionally. -/
theorem completed_at_restamped_on_repeated_terminal_updates :
    ((update_task_status "t1" "completed" none none none "T1" true
        [pendingRow]).2.map (fun r => r.completed_at) = [some "T1"]) ∧
    ((update_task_status "t1" "completed" none none none "T2" true
        (update_task_status "t1" "completed" none none none "T1" true
          [pendingRow]).2).2.map (fun r => r.completed_at) = [some "T2"]) ∧
    (some "T2" ≠ (some "T1" : Option String)) ∧
    ((save_task saveProcArgs "T1" true []).2.map (fun r => r.started_at) =
      [some "T1"]) ∧
    ((save_task saveProcArgs "T2" true
        (save_task saveProcArgs "T1" true []).2).2.map
        (fun r => r.started_at) = [some "T2"]) := by
  refine ⟨rfl, rfl, by decide, rfl, rfl⟩

/-! ## C7 — routing an unknown agent -/

/-- C7.  Routing a task for an agent name absent from the registry
raises the not-found error and leaves every piece of session state — the
in-memory map, the persistent table, and the operation log — exactly as
it was. -/
theorem route_unknown_agent_raises_and_leaves_state (reg : Registry)
    (p a t c now : String) (st : SessionState)
    (h : get_agent reg a = none) :
    route_agent_task reg p a t c now st = (.error (.agentNotFound a), st) ∧
    (route_agent_task reg p a t c now st).2.memory = st.memory ∧
    (route_agent_task reg p a t c now st).2.table = st.table ∧
    (route_agent_task reg p a t c now st).2.storeOps = st.storeOps := by
  have h1 : route_agent_task reg p a t c now st =
      (.error (.agentNotFound a), st) := by
    simp [route_agent_task, h]
  exact ⟨h1, by rw [h1], by rw [h1], by rw [h1]⟩

/-- Witness for C7 at the spec's scenario input `"ghost_agent"`. -/
theorem route_unknown_agent_witness :
    get_agent demoRegistry "ghost_agent" = none ∧
    route_agent_task demoRegistry "p1" "ghost_agent" "t1" "ctx" "T0"
      sessDemo = (.error (.agentNotFound "ghost_agent"), sessDemo) :=
  ⟨by decide,
   (route_unknown_agent_raises_and_leaves_state demoRegistry "p1"
     "ghost_agent" "t1" "ctx" "T0" sessDemo (by decide)).1⟩

/-! ## C10 — the execution-type space and the unreachable error branch -/

/-- C10.  Every value of the `Literal["local", "remote"]` field type is
`local` or `remote`; a definition constructed without naming the field
gets the declared default `local`; and consequently `route_agent_task`'s
final invalid-execution-type branch is unreachable — no routing call on
any registry and state returns that error. -/
theorem execution_type_binary_and_invalid_branch_unreachable :
    (∀ e : ExecutionType, e = .localExec ∨ e = .remoteExec) ∧
    (∀ n r de g req art ap,
      ({ name := n, role := r, description := de, goal := g,
         requirements := req, artifacts := art,
         requires_approval := ap } : AgentDefinition).execution_type =
        .localExec) ∧
    (∀ (reg : Registry) (p a t c now : String) (st : SessionState),
      routeResultInvalid (route_agent_task reg p a t c now st).1 =
        false) := by
  refine ⟨fun e => by cases e <;> simp, fun _ _ _ _ _ _ _ => rfl, ?_⟩
  intro reg p a t c now st
  unfold route_agent_task
  cases hga : get_agent reg a with
  | none => rfl
  | some d =>
      obtain ⟨n, r, de, g, req, art, ap, et, s3, fm⟩ := d
      cases et <;> rfl

/-! ## C4 — the routed session of a local-backend agent -/

/-- C4, counterexample to the claim as stated.  The scenario's session
row is created and persisted with status `routed` and no machine handle,
but its `worker_id` is the literal `"celery"`, not the queue name that
`task_routes` assigns to local agent-initialization work
(`"agent_initialization_queue"`), so "workerId equal to the local queue
name" is false. -/
theorem local_route_worker_id_differs_from_queue_name :
    (route_agent_task demoRegistry "p1" "qa" "t1" "ctx" "T0"
        sessDemo).2.storeOps = [.insertRow c4InsertedRow] ∧
    c4InsertedRow.worker_id = "celery" ∧
    agentInitQueueName = "agent_initialization_queue" ∧
    c4InsertedRow.worker_id ≠ agentInitQueueName :=
  ⟨rfl, rfl, rfl, by decide⟩

/-- C4 as amended.  Routing any local-backend agent creates the session
keyed `projectId:agentName:taskId` in memory and inserts it into the
session store (when the store client is configured) with status
`routed`, `worker_id` the literal `"celery"` — the Celery routing
destination, not a configured queue name — and no `fly_machine_id`,
before `route_agent_task` returns. -/
theorem route_local_agent_creates_routed_session (reg : Registry)
    (p a t c now : String) (st : SessionState) (d : AgentDefinition)
    (hd : get_agent reg a = some d) (hloc : d.execution_type = .localExec)
    (hcfg : st.storeConfigured = true) :
    ∃ ri : RoutingInfo,
      (route_agent_task reg p a t c now st).1 = .ok ri ∧
      ri.session_key = p ++ ":" ++ a ++ ":" ++ t ∧
      ri.execution_type = "local" ∧ ri.route_to = "celery" ∧
      ri.fly_machine_id = none ∧
      (route_agent_task reg p a t c now st).2.storeOps =
        st.storeOps ++ [.insertRow
          { session_key := p ++ ":" ++ a ++ ":" ++ t, project_id := p,
            agent_name := a, task_id := t, execution_type := "local",
            worker_id := "celery", status := "routed",
            context := if c = "" then none else some c,
            routing_info := some ri, fly_machine_id := none,
            completed_at := none }] ∧
      dictGet (route_agent_task reg p a t c now st).2.memory
          (p ++ ":" ++ a ++ ":" ++ t) =
        some [("project_id", p), ("agent_name", a), ("task_id", t),
              ("execution_type", "local"), ("worker_id", "celery"),
              ("status", "routed"), ("created_at", now)] := by
  obtain ⟨n, r, de, g, req, art, ap, et, s3, fm⟩ := d
  have hloc' : et = ExecutionType.localExec := hloc
  subst hloc'
  unfold route_agent_task
  rw [hd]
  refine ⟨_, rfl, rfl, rfl, rfl, rfl, ?_, ?_⟩
  · show ((_route_to_celery p a t c (p ++ ":" ++ a ++ ":" ++ t) now
        st).2).storeOps = _
    unfold _route_to_celery _register_session
    simp only [hcfg, if_true]
    by_cases hc : c = "" <;> simp [hc, optStrTruthy]
  · show dictGet ((_route_to_celery p a t c (p ++ ":" ++ a ++ ":" ++ t)
        now st).2).memory (p ++ ":" ++ a ++ ":" ++ t) = _
    unfold _route_to_celery _register_session
    simp only [hcfg, if_true]
    exact dictGet_dictSet_self st.memory (p ++ ":" ++ a ++ ":" ++ t) _

/-- Witness for the amended C4 at the spec's scenario
`projectId="p1", agentName="qa", taskId="t1"`. -/
theorem route_local_agent_creates_routed_session_witness :
    get_agent demoRegistry "qa" = some demoQa ∧
    demoQa.execution_type = .localExec ∧
    sessDemo.storeConfigured = true ∧
    ∃ ri : RoutingInfo,
      (route_agent_task demoRegistry "p1" "qa" "t1" "ctx" "T0"
        sessDemo).1 = .ok ri ∧
      ri.session_key = "p1:qa:t1" ∧
      ri.execution_type = "local" ∧ ri.route_to = "celery" ∧
      ri.fly_machine_id = none ∧
      (route_agent_task demoRegistry "p1" "qa" "t1" "ctx" "T0"
        sessDemo).2.storeOps = sessDemo.storeOps ++ [.insertRow
          { session_key := "p1:qa:t1", project_id := "p1",
            agent_name := "qa", task_id := "t1",
            execution_type := "local", worker_id := "celery",
            status := "routed",
            context := if "ctx" = "" then none else some "ctx",
            routing_info := some ri, fly_machine_id := none,
            completed_at := none }] ∧
      dictGet (route_agent_task demoRegistry "p1" "qa" "t1" "ctx" "T0"
          sessDemo).2.memory "p1:qa:t1" =
        some [("project_id", "p1"), ("agent_name", "qa"),
              ("task_id", "t1"), ("execution_type", "local"),
              ("worker_id", "celery"), ("status", "routed"),
              ("created_at", "T0")] :=
  ⟨by decide, rfl, rfl,
   route_local_agent_creates_routed_session demoRegistry "p1" "qa" "t1"
     "ctx" "T0" sessDemo demoQa (by decide) rfl rfl⟩

/-! ## C6 — the registration contract -/

/-- C6, counterexample to the claim as stated.  Two names differing only
by letter case — `"QA "` and `"qa "` — both pass validation, yet the
second registration succeeds instead of failing with the conflict error:
the conflict scan compares each existing key's lower-casing against the
lower-cased *and stripped* new name, so case-only duplicates carrying
surrounding whitespace slip through. -/
theorem case_only_duplicate_with_whitespace_not_rejected :
    qaUpperSpace.name ≠ qaLowerSpace.name ∧
    pyLower qaUpperSpace.name = pyLower qaLowerSpace.name ∧
    register_agent qaUpperSpace [] [] false false =
      (.ok (), [("QA ", qaUpperSpace)], []) ∧
    (register_agent qaLowerSpace [("QA ", qaUpperSpace)] [] false
      false).1 = .ok () :=
  ⟨by decide, by decide, rfl, rfl⟩

/-- C6 as amended.  `register_agent` fails with the validation error
exactly when the name strips to the empty string; otherwise it fails
with the conflict error precisely when some existing key's lower-casing
equals the new name's lower-cased-and-stripped form while differing from
the new name as a string (so for names without surrounding whitespace,
case-insensitive collisions are rejected); on success the definition is
set in the in-memory registry under its name — and in every case the
error/registry outcome is independent of whether the store sync runs or
fails. -/
theorem register_agent_contract (a : AgentDefinition) (reg : Registry)
    (store : AgentStore) (cfg sf : Bool) :
    (((register_agent a reg store cfg sf).1,
        (register_agent a reg store cfg sf).2.1) =
      ((register_agent a reg store false false).1,
        (register_agent a reg store false false).2.1)) ∧
    (pyStrip a.name = "" →
      register_agent a reg store cfg sf =
        (.error (.validationErr "Agent name cannot be empty"), reg,
          store)) ∧
    (pyStrip a.name ≠ "" → ∀ p, conflictingEntry reg a = some p →
      register_agent a reg store cfg sf =
        (.error (.conflictErr ("Agent name '" ++ a.name ++
          "' conflicts with existing agent '" ++ p.1 ++
          "' (names must be unique)")), reg, store)) ∧
    (pyStrip a.name ≠ "" → conflictingEntry reg a = none →
      (register_agent a reg store cfg sf).1 = .ok () ∧
      (register_agent a reg store cfg sf).2.1 = dictSet reg a.name a) := by
  refine ⟨?_, ?_, ?_, ?_⟩
  · unfold register_agent
    split
    · rfl
    · split
      · rfl
      · cases cfg <;> cases sf <;> rfl
  · intro hv
    simp [register_agent, hv]
  · intro hv p hp
    have hne : ¬(a.name = "") := by
      intro h
      exact hv (by rw [h]; rfl)
    simp [register_agent, hv, hne, hp]
  · intro hv hp
    have hne : ¬(a.name = "") := by
      intro h
      exact hv (by rw [h]; rfl)
    constructor <;>
      · simp [register_agent, hv, hne, hp]
        split <;> rfl

/-- Witness for the amended C6: registering the `qa` agent into an
empty registry succeeds and stores it under its name. -/
theorem register_agent_contract_witness :
    pyStrip demoQa.name ≠ "" ∧ conflictingEntry [] demoQa = none ∧
    ((register_agent demoQa [] [] true true).1 = .ok () ∧
      (register_agent demoQa [] [] true true).2.1 =
        dictSet [] demoQa.name demoQa) :=
  ⟨by decide, by decide,
   (register_agent_contract demoQa [] [] true true).2.2.2 (by decide)
     (by decide)⟩

/-! ## C8 — idempotent registry sync -/

/-- The diff of an agent against its own row is empty. -/
theorem needsUpdate_agentRowOf (a : AgentDefinition) :
    needsUpdate (agentRowOf a) a = false := by
  simp [needsUpdate, agentRowOf]

/-- A row stored under an agent's name whose diff is empty is exactly
the agent's row. -/
theorem row_eq_of_not_needsUpdate (a : AgentDefinition) (row : AgentRow)
    (hname : (row.name == a.name) = true)
    (h : needsUpdate row a = false) : row = agentRowOf a := by
  simp only [needsUpdate, Bool.or_eq_false_iff, bne_eq_false_iff_eq] at h
  simp only [beq_iff_eq] at hname
  cases row
  simp only [agentRowOf, AgentRow.mk.injEq]
  simp_all

/-- Replacing the first row under the agent's name makes it the agent's
row in first position. -/
theorem updateFirstRow_find_self (a : AgentDefinition) (s : AgentStore)
    (row : AgentRow) (h : s.find? (fun r => r.name == a.name) = some row) :
    (updateFirstRow s a).find? (fun r => r.name == a.name) =
      some (agentRowOf a) := by
  induction s with
  | nil => simp at h
  | cons q s ih =>
      by_cases hq : (q.name == a.name) = true
      · unfold updateFirstRow
        rw [if_pos hq]
        simp [List.find?_cons, agentRowOf]
      · unfold updateFirstRow
        rw [if_neg hq]
        simp only [List.find?_cons, hq, Bool.false_eq_true]
        apply ih
        simpa [List.find?_cons, hq] using h

/-- Replacing the first row under one name does not disturb lookups
under another. -/
theorem updateFirstRow_find_other (a : AgentDefinition) (b : String)
    (s : AgentStore) (h : (a.name == b) = false) :
    (updateFirstRow s a).find? (fun r => r.name == b) =
      s.find? (fun r => r.name == b) := by
  induction s with
  | nil => rfl
  | cons q s ih =>
      by_cases hq : (q.name == a.name) = true
      · unfold updateFirstRow
        rw [if_pos hq]
        have hqb : (q.name == b) = false := by
          simp only [beq_iff_eq] at hq
          simpa [hq] using h
        have hab : ((agentRowOf a).name == b) = false := h
        simp only [List.find?_cons, hqb, hab]
      · unfold updateFirstRow
        rw [if_neg hq]
        by_cases hqb : (q.name == b) = true
        · simp only [List.find?_cons, hqb]
        · simp only [List.find?_cons, hqb, Bool.false_eq_true]
          exact ih

/-- After syncing one agent, the first stored row under its name is its
row. -/
theorem sync_find_self (a : AgentDefinition) (s : AgentStore) :
    ((_sync_to_supabase a s).1.find? (fun r => r.name == a.name)) =
      some (agentRowOf a) := by
  unfold _sync_to_supabase
  cases hf : s.find? (fun r => r.name == a.name) with
  | none =>
      simp only []
      rw [List.find?_append, hf]
      simp [List.find?, agentRowOf]
  | some row =>
      by_cases hu : needsUpdate row a = true
      · simp only [hu, if_true]
        exact updateFirstRow_find_self a s row hf
      · have hu' : needsUpdate row a = false := Bool.eq_false_iff.mpr hu
        have hp := List.find?_some hf
        have hrow := row_eq_of_not_needsUpdate a row hp hu'
        simp [hu', hf, hrow, needsUpdate_agentRowOf]

/-- Syncing one agent does not disturb stored rows under other names. -/
theorem sync_find_other (a : AgentDefinition) (b : String) (s : AgentStore)
    (h : (a.name == b) = false) :
    ((_sync_to_supabase a s).1.find? (fun r => r.name == b)) =
      s.find? (fun r => r.name == b) := by
  unfold _sync_to_supabase
  cases hf : s.find? (fun r => r.name == a.name) with
  | none =>
      simp only []
      rw [List.find?_append]
      have : ((agentRowOf a).name == b) = false := h
      simp [List.find?, this]
  | some row =>
      by_cases hu : needsUpdate row a = true
      · simp only [hu, if_true]
        exact updateFirstRow_find_other a b s h
      · have hu' : needsUpdate row a = false := Bool.eq_false_iff.mpr hu
        simp [hu']

/-- Syncing a batch of agents none of which carries name `b` does not
disturb the stored row under `b`. -/
theorem syncList_find_other (as : List AgentDefinition) (b : String)
    (s : AgentStore) (h : ∀ a ∈ as, a.name ≠ b) :
    ((syncList as s).1.find? (fun r => r.name == b)) =
      s.find? (fun r => r.name == b) := by
  induction as generalizing s with
  | nil => rfl
  | cons x xs ih =>
      have hx : (x.name == b) = false := by
        simpa using h x (List.mem_cons_self x xs)
      show ((syncList xs (_sync_to_supabase x s).1).1.find?
        (fun r => r.name == b)) = _
      rw [ih (_sync_to_supabase x s).1
        (fun a ha => h a (List.mem_cons_of_mem x ha))]
      exact sync_find_other x b s hx

/-- After one full sync pass over agents with pairwise-distinct names,
every agent's stored row equals its definition's row. -/
theorem syncList_establishes (as : List AgentDefinition) (s : AgentStore)
    (h : (as.map (fun a => a.name)).Nodup) :
    ∀ a ∈ as, ((syncList as s).1.find? (fun r => r.name == a.name)) =
      some (agentRowOf a) := by
  induction as generalizing s with
  | nil => simp
  | cons x xs ih =>
      intro a ha
      rw [List.map_cons, List.nodup_cons] at h
      rcases List.mem_cons.mp ha with rfl | ha'
      · show ((syncList xs (_sync_to_supabase a s).1).1.find?
          (fun r => r.name == a.name)) = _
        rw [syncList_find_other xs a.name (_sync_to_supabase a s).1
          (fun y hy heq => h.1 (heq ▸ List.mem_map_of_mem _ hy))]
        exact sync_find_self a s
      · exact ih (_sync_to_supabase x s).1 h.2 a ha'

/-- A sync pass over agents whose stored rows already equal their
definitions issues no write and leaves the store unchanged. -/
theorem syncList_noop (as : List AgentDefinition) (s : AgentStore)
    (h : ∀ a ∈ as, s.find? (fun r => r.name == a.name) =
      some (agentRowOf a)) : syncList as s = (s, []) := by
  induction as with
  | nil => rfl
  | cons x xs ih =>
      have hsync : _sync_to_supabase x s = (s, []) := by
        unfold _sync_to_supabase
        rw [h x (List.mem_cons_self x xs)]
        show (if needsUpdate (agentRowOf x) x = true then _ else (s, [])) =
          (s, [])
        rw [needsUpdate_agentRowOf x]
        simp
      show ((syncList xs (_sync_to_supabase x s).1).1,
        (_sync_to_supabase x s).2 ++
          (syncList xs (_sync_to_supabase x s).1).2) = _
      rw [hsync, ih (fun a ha => h a (List.mem_cons_of_mem x ha))]
      rfl

/-- C8.  With no intervening definition change, a second
`sync_all_to_supabase` pass issues zero writes against the `agents`
table: each per-agent read-compare finds the row the first pass wrote
bit-for-bit equal across role/description/goal/requirements/artifacts/
requires_approval, so neither an insert nor an update is issued.
Registered names are pairwise distinct because the in-memory registry is
a dict keyed by `agent.name`. -/
theorem sync_all_second_pass_writes_nothing (cfg : Bool) (reg : Registry)
    (store : AgentStore)
    (h : (reg.map (fun p => p.2.name)).Nodup) :
    (sync_all_to_supabase cfg reg
      (sync_all_to_supabase cfg reg store).1).2.1 = [] := by
  cases cfg with
  | false => rfl
  | true =>
      unfold sync_all_to_supabase
      simp only [Bool.not_true, Bool.false_eq_true, if_false]
      have hn : ((reg.map (fun p => p.2)).map (fun a => a.name)).Nodup := by
        simpa [List.map_map, Function.comp] using h
      have hest := syncList_establishes (reg.map (fun p => p.2)) store hn
      rw [syncList_noop (reg.map (fun p => p.2))
        (syncList (reg.map (fun p => p.2)) store).1 hest]

/-- Witness for C8 on the two-agent demo registry. -/
theorem sync_all_second_pass_witness :
    (demoRegistry.map (fun p => p.2.name)).Nodup ∧
    (sync_all_to_supabase true demoRegistry
      (sync_all_to_supabase true demoRegistry []).1).2.1 = [] :=
  ⟨by decide,
   sync_all_second_pass_writes_nothing true demoRegistry [] (by decide)⟩

/-! ## C9 — session permanence -/

/-- `_register_session` appends only insert operations — never a
delete. -/
theorem register_session_no_delete (k p a t et w s : String)
    (c : Option String) (ri : Option RoutingInfo) (fm : Option String)
    (now : String) (st : SessionState) :
    (newSessOps (_register_session k p a t et w s c ri fm now st)
      st).all (fun op => !op.isDelete) = true := by
  unfold _register_session newSessOps
  by_cases hcfg : st.storeConfigured = true <;>
    simp [hcfg, List.drop_left, List.drop_length, SessStoreOp.isDelete]

/-- `route_agent_task` appends only insert operations — never a
delete. -/
theorem route_agent_task_no_delete (reg : Registry)
    (p a t c now : String) (st : SessionState) :
    (newSessOps (route_agent_task reg p a t c now st).2 st).all
      (fun op => !op.isDelete) = true := by
  unfold route_agent_task
  cases hga : get_agent reg a with
  | none => simp [newSessOps, List.drop_length]
  | some d =>
      obtain ⟨n, r, de, g, req, art, ap, et, s3, fm⟩ := d
      cases et
      · exact register_session_no_delete _ _ _ _ _ _ _ _ _ _ _ _
      · exact register_session_no_delete _ _ _ _ _ _ _ _ _ _ _ _

/-- `get_session` appends only select operations — never a delete. -/
theorem get_session_no_delete (k : String) (st : SessionState) :
    (newSessOps (get_session k st).2 st).all
      (fun op => !op.isDelete) = true := by
  unfold get_session newSessOps
  cases hm : dictGet st.memory k with
  | some v => simp [List.drop_length]
  | none =>
      by_cases hcfg : st.storeConfigured = true
      · cases hf : st.table.find? (fun r => r.session_key == k) <;>
          simp [hcfg, hf, List.drop_left, SessStoreOp.isDelete]
      · simp [hcfg, List.drop_length]

/-- The project listing appends only select operations — never a
delete. -/
theorem sessions_for_project_no_delete (pid : String)
    (st : SessionState) :
    (newSessOps (get_active_sessions_for_project pid st).2 st).all
      (fun op => !op.isDelete) = true := by
  unfold get_active_sessions_for_project newSessOps
  by_cases hcfg : st.storeConfigured = true
  · by_cases hr :
      (st.table.filter (fun r => r.project_id == pid)).isEmpty <;>
      simp [hcfg, hr, List.drop_left, SessStoreOp.isDelete]
  · simp [hcfg, List.drop_length]

/-- The agent listing appends only select operations — never a
delete. -/
theorem sessions_for_agent_no_delete (an : String) (st : SessionState) :
    (newSessOps (get_active_sessions_for_agent an st).2 st).all
      (fun op => !op.isDelete) = true := by
  unfold get_active_sessions_for_agent newSessOps
  by_cases hcfg : st.storeConfigured = true
  · by_cases hr :
      (st.table.filter (fun r => r.agent_name == an)).isEmpty <;>
      simp [hcfg, hr, List.drop_left, SessStoreOp.isDelete]
  · simp [hcfg, List.drop_length]

/-- C9.  No operation of the session tracker ever issues a delete
against the session store; `update_session_status` only ever issues
updates keyed by the given `sessionKey`; and in the update payload
`completed_at` is set (to the current clock value) exactly when the new
status is `completed` or `failed`, for callers that do not themselves
pass a `completed_at` extra field. -/
theorem session_tracker_never_deletes :
    (∀ (k s : String) (kw : List (String × String)) (now : String)
        (st : SessionState),
      (newSessOps (update_session_status k s kw now st).2 st).all
        (fun op => op.isUpdateKeyed k && !op.isDelete) = true) ∧
    (∀ (k s : String) (kw : List (String × String)) (now : String)
        (st : SessionState),
      kw.all (fun p => p.1 ≠ "completed_at") = true →
      ∀ data, SessStoreOp.updateRow k data ∈
          newSessOps (update_session_status k s kw now st).2 st →
        dictGet data "completed_at" =
          (if s = "completed" ∨ s = "failed" then some now else none)) ∧
    (∀ (k p a t et w s : String) (c : Option String)
        (ri : Option RoutingInfo) (fm : Option String) (now : String)
        (st : SessionState),
      (newSessOps (_register_session k p a t et w s c ri fm now st)
        st).all (fun op => !op.isDelete) = true) ∧
    (∀ (reg : Registry) (p a t c now : String) (st : SessionState),
      (newSessOps (route_agent_task reg p a t c now st).2 st).all
        (fun op => !op.isDelete) = true) ∧
    (∀ (k : String) (st : SessionState),
      (newSessOps (get_session k st).2 st).all
        (fun op => !op.isDelete) = true) ∧
    (∀ (pid : String) (st : SessionState),
      (newSessOps (get_active_sessions_for_project pid st).2 st).all
        (fun op => !op.isDelete) = true) ∧
    (∀ (an : String) (st : SessionState),
      (newSessOps (get_active_sessions_for_agent an st).2 st).all
        (fun op => !op.isDelete) = true) := by
  refine ⟨?_, ?_, register_session_no_delete, route_agent_task_no_delete,
    get_session_no_delete, sessions_for_project_no_delete,
    sessions_for_agent_no_delete⟩
  · intro k s kw now st
    unfold update_session_status newSessOps
    by_cases hm : (st.memory.any (fun p => p.1 == k)) = true <;>
      by_cases hcfg : st.storeConfigured = true <;>
      simp [hm, hcfg, List.drop_left, List.drop_length,
        SessStoreOp.isUpdateKeyed, SessStoreOp.isDelete]
  · intro k s kw now st hkw data hmem
    have hbase : dictGet [("status", s)] "completed_at" = none := by
      have h0 : ("status" == "completed_at") = false := by decide
      simp [dictGet, List.find?, h0]
    unfold update_session_status newSessOps at hmem
    by_cases hm : (st.memory.any (fun p => p.1 == k)) = true <;>
      by_cases hcfg : st.storeConfigured = true <;>
      simp [hm, hcfg, List.drop_left, List.drop_length] at hmem <;>
      subst hmem
    all_goals
      by_cases h1 : s = "completed"
      · subst h1
        simp [dictGet_dictSet_self]
      · by_cases h2 : s = "failed"
        · subst h2
          simp [dictGet_dictSet_self]
        · simp [h1, h2]
          exact dictGet_pyDictMerge_none kw [("status", s)] "completed_at"
            hbase hkw

/-- Witness for C9's completed-at clause at a terminal status: the
single issued operation is the keyed update whose payload stamps
`completed_at` with the clock value. -/
theorem session_tracker_never_deletes_witness :
    dictGet [("status", "completed"), ("completed_at", "T9")]
      "completed_at" =
      (if "completed" = "completed" ∨ "completed" = "failed" then
        some "T9" else none) :=
  session_tracker_never_deletes.2.1 "p1:qa:t1" "completed" [] "T9"
    sessDemo (by decide)
    [("status", "completed"), ("completed_at", "T9")] (by decide)

/-! ## Development lemmas on the webhook protocol (C5)

The exact-byte signing and recomputation clauses of the protocol hold of
`send_webhook`; the remaining clause of the round-trip property — that
every one-byte mutation of the body defeats verification — is a
second-preimage-resistance property of HMAC-SHA256 and is settled
neither way here. -/

/-- With no URL and no secret configured, `send_webhook` returns
`false` without building or posting any request. -/
theorem send_webhook_unconfigured (event_type project_id : String)
    (payload : JsonVal) (httpxAvailable : Bool) (now : String)
    (transport : SentRequest → HttpOutcome) :
    send_webhook event_type project_id payload none none none none
      httpxAvailable now transport = (false, none) := rfl

/-- Whenever `send_webhook` posts a request at all, the posted body is
exactly the sorted-key JSON serialization of the four-key event object
it signed, the signature header is the hex HMAC-SHA256 of
`"{timestamp}.{body}"` under the effective secret, and recomputing the
signature from the received timestamp header and raw body — which is
what `_generate_signature` computes — reproduces the transmitted
signature bit for bit. -/
theorem send_webhook_signs_transmitted_bytes (event_type project_id :
    String) (payload : JsonVal)
    (webhook_url webhook_secret envUrl envSecret : Option String)
    (httpxAvailable : Bool) (now : String)
    (transport : SentRequest → HttpOutcome) (req : SentRequest)
    (h : (send_webhook event_type project_id payload webhook_url
      webhook_secret envUrl envSecret httpxAvailable now transport).2 =
      some req) :
    req.timestampHeader = now ∧
    req.content = dumpsSorted
      (webhookBodyObj event_type project_id now payload) ∧
    req.signatureHeader =
      hmacSha256Hex ((pyOrStr webhook_secret envSecret).getD "")
        (now ++ "." ++ req.content) ∧
    _generate_signature req.timestampHeader req.content
      ((pyOrStr webhook_secret envSecret).getD "") =
      req.signatureHeader := by
  unfold send_webhook at h
  by_cases hg : (!optStrTruthy (pyOrStr webhook_url envUrl) ||
      !optStrTruthy (pyOrStr webhook_secret envSecret)) = true
  · rw [if_pos hg] at h
    simp at h
  · rw [if_neg hg] at h
    by_cases hh : httpxAvailable = true
    · rw [if_neg (by simp [hh])] at h
      simp only [] at h
      rcases htr : transport
          { url := (pyOrStr webhook_url envUrl).getD "",
            content := dumpsSorted (webhookBodyObj event_type project_id
              now payload),
            contentType := "application/json",
            signatureHeader :=
              hmacSha256Hex ((pyOrStr webhook_secret envSecret).getD "")
                (now ++ "." ++ dumpsSorted (webhookBodyObj event_type
                  project_id now payload)),
            timestampHeader := now } with c | m | m <;>
        rw [htr] at h <;> simp at h <;>
        rw [← h] <;> exact ⟨rfl, rfl, rfl, rfl⟩
    · rw [if_pos (by simp [hh])] at h
      simp at h

end Gia
